import Mathlib

/-
Shallow embedding of the collaborative widget-locking subsystem of the
Essential-Workflow-Services repository, translated from:
  app/dbmodels/widget_locking_models.py   (WidgetLock, UserSession rows)
  app/codebase/widget_locking.py          (CoreWidgetLocking)
  app/services/widget_locking_service.py  (WidgetLockingService)
  app/schemas/widget_locking_schemas.py   (WidgetLockAcquireSchema)
  app/core/database.py                    (DatabaseManager.session)

Modelling conventions:
* UUIDs are opaque identifiers, embedded as `Nat`.
* Timestamps are UTC instants in seconds, embedded as `Int`.  Every
  `datetime.now(timezone.utc)` evaluated inside one logical operation is
  embedded as the single `now` parameter of that operation.
* The durable store is the pair of tables `widget_locks` / `user_sessions`,
  embedded as `DBState`.  `CollaborationEvent` rows are an append-only
  diagnostics log that the subsystem never reads back, so they are not part
  of the embedded state.
* `DatabaseManager.session` (app/core/database.py) yields a session with
  `autocommit=False` and never commits on exit (its doc string says
  "Manual commit required"); `AsyncSession.close()` rolls back an open
  uncommitted transaction.  Hence an operation's effect on the durable state
  is exactly the effect of the writes that were followed by an explicit
  `session.commit()` before the `async with` block ended.  Operations are
  embedded as pure functions from the committed `DBState` to the committed
  `DBState`; where a claim concerns rows that were flushed but never
  committed, a separate `..._txn` function embeds the transaction-local
  state as well.
* The volatile cache is strictly advisory (spec section 5: the system must
  remain correct with the cache entirely disabled); service operations are
  embedded on their cache-miss path, and cache writes/invalidations have no
  effect on the embedded state.
* Store failures on the acquire path are embedded by an explicit
  `upsert_fails` flag that makes the lock-upsert step raise exactly where
  the `session.commit()` of `CoreWidgetLocking.acquire_widget_lock` can
  raise; the surrounding `except` branches then roll back to the last
  committed state, as in the Python code.
-/

/-- Row of the `widget_locks` table (`WidgetLock` in
app/dbmodels/widget_locking_models.py).  `widget_id` is the primary key. -/
structure WidgetLockRow where
  widget_id : Nat
  dashboard_id : Nat
  session_id : Nat
  user_id : Nat
  user_name : String
  locked_at : Int
  expires_at : Int
  last_heartbeat : Int
  is_active : Bool
deriving Repr, DecidableEq

/-- Row of the `user_sessions` table (`UserSession` in
app/dbmodels/widget_locking_models.py).  `session_id` is the primary key. -/
structure UserSessionRow where
  session_id : Nat
  dashboard_id : Nat
  user_id : Nat
  user_name : String
  user_email : Option String
  client_info : Option String
  connected_at : Int
  last_activity : Int
  is_active : Bool
  locked_widgets : List Nat
deriving Repr, DecidableEq

/-- The durable store: the two mutable tables owned by the lock engine and
the session tracker. -/
structure DBState where
  locks : List WidgetLockRow
  sessions : List UserSessionRow
deriving Repr, DecidableEq

/-- The `user_info` dict assembled by the router from the authenticated
user (user_id, user_name, optional email and client metadata). -/
structure UserInfo where
  user_id : Nat
  user_name : String
  user_email : Option String
  client_info : Option String
deriving Repr, DecidableEq

/-- In-place update of the first list element satisfying `p`, as performed by
mutating the single ORM object returned by `scalar_one_or_none()`. -/
def updateFirst (p : α → Bool) (g : α → α) : List α → List α
  | [] => []
  | x :: xs => if p x then g x :: xs else x :: updateFirst p g xs

/-- `WidgetLock.time_remaining` (app/dbmodels/widget_locking_models.py):
`max(0.0, (expires_at - datetime.now(timezone.utc)).total_seconds())`. -/
def time_remaining (l : WidgetLockRow) (now : Int) : Int :=
  max 0 (l.expires_at - now)

/-- `WidgetLockAcquireSchema.lock_duration`
(app/schemas/widget_locking_schemas.py): `Field(default=60, ge=30, le=300)`.
Pydantic `ge`/`le` constraints reject an out-of-range value with a validation
error and otherwise pass the value through unchanged. -/
def validate_lock_duration (d : Int) : Option Int :=
  if 30 ≤ d ∧ d ≤ 300 then some d else none

namespace CoreWidgetLocking

/-- `CoreWidgetLocking.get_active_widget_lock`:
`select(WidgetLock).where(widget_id == widget_id & is_active == True)`,
read with `scalar_one_or_none()`. -/
def get_active_widget_lock (locks : List WidgetLockRow) (widget_id : Nat) :
    Option WidgetLockRow :=
  locks.find? (fun l => l.widget_id == widget_id && l.is_active)

/-- Step 1 of `CoreWidgetLocking.acquire_widget_lock`:
`select(WidgetLock).where(widget_id == widget_id)` (active or inactive). -/
def find_widget_lock_row (locks : List WidgetLockRow) (widget_id : Nat) :
    Option WidgetLockRow :=
  locks.find? (fun l => l.widget_id == widget_id)

/-- Filter of `CoreWidgetLocking.get_or_create_user_session`:
active session of this user on this dashboard. -/
def user_session_pred (dashboard_id user_id : Nat) (s : UserSessionRow) : Bool :=
  s.dashboard_id == dashboard_id && s.user_id == user_id && s.is_active

/-- Result of `get_or_create_user_session`: the session object handed back to
the caller, the transaction-local state (changes flushed but not yet
committed), and the durable state after the commits the call itself made. -/
structure GetOrCreateResult where
  session : UserSessionRow
  draft : DBState
  committed : DBState
deriving Repr, DecidableEq

/-- `CoreWidgetLocking.get_or_create_user_session`.  The existing-session
branch bumps `last_activity` and only flushes (the change stays pending in
the open transaction); the create branch adds the new row and calls
`session.commit()`, making the new session durable immediately. -/
def get_or_create_user_session (st : DBState) (now : Int) (dashboard_id : Nat)
    (u : UserInfo) (fresh_session_id : Nat) : GetOrCreateResult :=
  match st.sessions.find? (user_session_pred dashboard_id u.user_id) with
  | some s =>
    let s2 := { s with last_activity := now }
    let bumped := updateFirst (user_session_pred dashboard_id u.user_id)
      (fun x => { x with last_activity := now }) st.sessions
    { session := s2, draft := { st with sessions := bumped }, committed := st }
  | none =>
    let s2 : UserSessionRow := {
      session_id := fresh_session_id, dashboard_id := dashboard_id,
      user_id := u.user_id, user_name := u.user_name,
      user_email := u.user_email, client_info := u.client_info,
      connected_at := now, last_activity := now,
      is_active := true, locked_widgets := [] }
    let st2 := { st with sessions := st.sessions ++ [s2] }
    { session := s2, draft := st2, committed := st2 }

/-- Outcome of `CoreWidgetLocking.acquire_widget_lock`: the returned
`WidgetLock` together with the durable state on success, or the raised
exception's message together with the durable state after rollback. -/
inductive AcquireCoreResult where
  | ok (lock : WidgetLockRow) (st : DBState)
  | err (msg : String) (st : DBState)
deriving Repr, DecidableEq

/-- Whether the core acquire returned normally. -/
def AcquireCoreResult.granted : AcquireCoreResult → Bool
  | .ok _ _ => true
  | .err _ _ => false

/-- The `expires_at` of the lock returned by the core acquire, if any. -/
def AcquireCoreResult.lockExpiresAt : AcquireCoreResult → Option Int
  | .ok l _ => some l.expires_at
  | .err _ _ => none

/-- The durable state after the core acquire (committed on success, rolled
back to the last commit point on error). -/
def AcquireCoreResult.state : AcquireCoreResult → DBState
  | .ok _ st => st
  | .err _ st => st

/-- Steps 3-6 of `CoreWidgetLocking.acquire_widget_lock`: get-or-create the
user session, then upsert the lock row (overwrite the existing row for this
widget, else insert a new one), add the widget to the session's
`locked_widgets` if absent, and commit.  When `upsert_fails` is set, the
upsert/commit raises and the `except` branch rolls the transaction back, so
the durable state is whatever `get_or_create_user_session` committed. -/
def acquire_widget_lock_upsert (st : DBState) (now : Int)
    (dashboard_id widget_id : Nat) (u : UserInfo) (lock_duration : Int)
    (fresh_session_id : Nat) (upsert_fails : Bool) : AcquireCoreResult :=
  let goc := get_or_create_user_session st now dashboard_id u fresh_session_id
  if upsert_fails then
    .err "store error during lock upsert" goc.committed
  else
    let us := goc.session
    let newLock : WidgetLockRow := {
      widget_id := widget_id, dashboard_id := dashboard_id,
      session_id := us.session_id, user_id := u.user_id,
      user_name := u.user_name, locked_at := now,
      expires_at := now + lock_duration, last_heartbeat := now,
      is_active := true }
    let locks2 :=
      match find_widget_lock_row st.locks widget_id with
      | some _ =>
        updateFirst (fun l => l.widget_id == widget_id) (fun _ => newLock) st.locks
      | none => st.locks ++ [newLock]
    let us2 :=
      if widget_id ∈ us.locked_widgets then us
      else { us with locked_widgets := us.locked_widgets ++ [widget_id],
                     last_activity := now }
    let sessions2 :=
      updateFirst (fun s => s.session_id == us.session_id) (fun _ => us2)
        goc.draft.sessions
    .ok newLock { locks := locks2, sessions := sessions2 }

/-- `CoreWidgetLocking.acquire_widget_lock` (the active upsert variant).
Step 2 raises `ValueError` when the existing row is active, not yet expired
(`now < expires_at`), and owned by a different user; the `except` branch
rolls back, leaving the durable state unchanged. -/
def acquire_widget_lock (st : DBState) (now : Int)
    (dashboard_id widget_id : Nat) (u : UserInfo) (lock_duration : Int)
    (fresh_session_id : Nat) (upsert_fails : Bool) : AcquireCoreResult :=
  match find_widget_lock_row st.locks widget_id with
  | some row =>
    if row.is_active = true ∧ now < row.expires_at ∧ row.user_id ≠ u.user_id then
      .err ("Widget is currently locked by " ++ row.user_name) st
    else
      acquire_widget_lock_upsert st now dashboard_id widget_id u lock_duration
        fresh_session_id upsert_fails
  | none =>
    acquire_widget_lock_upsert st now dashboard_id widget_id u lock_duration
      fresh_session_id upsert_fails

/-- Filter of step 1 of `CoreWidgetLocking.release_widget_lock`: the active
lock for this widget on this dashboard. -/
def release_lock_pred (dashboard_id widget_id : Nat) (l : WidgetLockRow) : Bool :=
  l.widget_id == widget_id && l.dashboard_id == dashboard_id && l.is_active

/-- `CoreWidgetLocking.release_widget_lock` (the active, session-scoped
variant): no active lock → True with no mutation; owned by someone else →
False with no mutation; otherwise mark the lock inactive, drop the widget
from the owning *active* session's `locked_widgets` (via
`get_user_session`, which filters on `is_active`), and commit. -/
def release_widget_lock (st : DBState) (dashboard_id widget_id : Nat)
    (user_id : Nat) : Bool × DBState :=
  match st.locks.find? (release_lock_pred dashboard_id widget_id) with
  | none => (true, st)
  | some lock =>
    if lock.user_id ≠ user_id then (false, st)
    else
      let locks2 := updateFirst (release_lock_pred dashboard_id widget_id)
        (fun l => { l with is_active := false }) st.locks
      let sessions2 :=
        match st.sessions.find?
            (fun s => s.session_id == lock.session_id && s.is_active) with
        | some us =>
          if widget_id ∈ us.locked_widgets then
            updateFirst (fun s => s.session_id == lock.session_id && s.is_active)
              (fun s => { s with locked_widgets :=
                s.locked_widgets.filter (fun x => x != widget_id) }) st.sessions
          else st.sessions
        | none => st.sessions
      (true, { locks := locks2, sessions := sessions2 })

/-- `CoreWidgetLocking.cleanup_stale_sessions_and_locks`, transaction-local
effect: count then delete every lock with `expires_at <= now`; collect the
active sessions with `last_activity <= now - timeout`; delete every lock
referencing a stale session's `session_id` and mark those sessions inactive;
return the two counts.  The function only ever calls `session.flush()`. -/
def cleanup_stale_sessions_and_locks_txn (st : DBState) (now : Int)
    (session_timeout_minutes : Int) : (Nat × Nat) × DBState :=
  let expired_locks_count :=
    (st.locks.filter (fun l => decide (l.expires_at ≤ now))).length
  let locks1 := st.locks.filter (fun l => !(decide (l.expires_at ≤ now)))
  let stale_time := now - session_timeout_minutes * 60
  let stale_pred := fun (s : UserSessionRow) =>
    decide (s.last_activity ≤ stale_time) && s.is_active
  let stale_sessions := st.sessions.filter stale_pred
  let locks2 := locks1.filter
    (fun l => !(stale_sessions.any (fun s => s.session_id == l.session_id)))
  let sessions2 := st.sessions.map
    (fun s => if stale_pred s then { s with is_active := false } else s)
  ((expired_locks_count, stale_sessions.length),
   { locks := locks2, sessions := sessions2 })

end CoreWidgetLocking

namespace WidgetLockingService

/-- `LockAcquisitionResponse` (app/schemas/widget_locking_schemas.py). -/
structure LockAcquisitionResponse where
  success : Bool
  widget_id : Nat
  session_id : Nat
  expires_at : Int
  message : String
deriving Repr, DecidableEq

/-- `HeartbeatResponse` (app/schemas/widget_locking_schemas.py). -/
structure HeartbeatResponse where
  success : Bool
  widget_id : Nat
  expires_at : Int
  message : String
deriving Repr, DecidableEq

/-- `WidgetLockStatusResponse` (app/schemas/widget_locking_schemas.py). -/
structure WidgetLockStatusResponse where
  widget_id : Nat
  is_locked : Bool
  locked_by : Option String
  locked_by_user_id : Option Nat
  locked_at : Option Int
  expires_at : Option Int
  time_remaining : Int
  can_acquire : Bool
deriving Repr, DecidableEq

/-- `WidgetLockingService.acquire_widget_lock` on the cache-miss path.
The service first re-reads the active lock itself and denies whenever that
lock is not yet expired (`not db_lock.is_expired`, i.e. `now ≤ expires_at`),
without comparing the owner to the requester; only otherwise does it call
`CoreWidgetLocking.acquire_widget_lock`.  The `except` branch translates a
core exception into a `success=False` response whose `session_id` is a
fresh placeholder UUID (embedded as 0) and whose `expires_at` is `now`. -/
def acquire_widget_lock (st : DBState) (now : Int)
    (dashboard_id widget_id : Nat) (u : UserInfo) (lock_duration : Int)
    (fresh_session_id : Nat) (upsert_fails : Bool) :
    LockAcquisitionResponse × DBState :=
  let deny : Option WidgetLockRow :=
    match CoreWidgetLocking.get_active_widget_lock st.locks widget_id with
    | some db_lock => if db_lock.expires_at < now then none else some db_lock
    | none => none
  match deny with
  | some db_lock =>
    ({ success := false, widget_id := widget_id,
       session_id := db_lock.session_id, expires_at := db_lock.expires_at,
       message := "Widget is locked by " ++ db_lock.user_name }, st)
  | none =>
    match CoreWidgetLocking.acquire_widget_lock st now dashboard_id widget_id u
        lock_duration fresh_session_id upsert_fails with
    | .ok lock st2 =>
      ({ success := true, widget_id := widget_id,
         session_id := lock.session_id, expires_at := lock.expires_at,
         message := "Widget lock acquired successfully" }, st2)
    | .err msg st2 =>
      ({ success := false, widget_id := widget_id, session_id := 0,
         expires_at := now,
         message := "Failed to acquire lock: " ++ msg }, st2)

/-- `WidgetLockingService.refresh_widget_lock` on the cache-miss path.
Checks existence, ownership and expiry (`is_expired` is
`now > expires_at`); on success delegates to
`CoreWidgetLocking.refresh_widget_lock` with
`lock_expiration_threshold = timedelta(minutes=2)` (120 s), which runs
`update(WidgetLock).where(widget_id == ...)`, bumps the owning active
session's `last_activity`, and commits. -/
def refresh_widget_lock (st : DBState) (now : Int)
    (dashboard_id widget_id : Nat) (user_id : Nat) :
    HeartbeatResponse × DBState :=
  match CoreWidgetLocking.get_active_widget_lock st.locks widget_id with
  | none =>
    ({ success := false, widget_id := widget_id, expires_at := now,
       message := "Widget lock not found or already released" }, st)
  | some lock =>
    if lock.user_id ≠ user_id then
      ({ success := false, widget_id := widget_id,
         expires_at := lock.expires_at,
         message := "You don't own this widget lock" }, st)
    else if lock.expires_at < now then
      ({ success := false, widget_id := widget_id,
         expires_at := lock.expires_at,
         message := "Widget lock has expired" }, st)
    else
      let locks2 := st.locks.map (fun l =>
        if l.widget_id == lock.widget_id then
          { l with expires_at := now + 120, last_heartbeat := now }
        else l)
      let sessions2 :=
        match st.sessions.find?
            (fun s => s.session_id == lock.session_id && s.is_active) with
        | some _ =>
          updateFirst (fun s => s.session_id == lock.session_id && s.is_active)
            (fun s => { s with last_activity := now }) st.sessions
        | none => st.sessions
      ({ success := true, widget_id := widget_id, expires_at := now + 120,
         message := "Widget lock heartbeat refreshed" },
       { locks := locks2, sessions := sessions2 })

/-- `WidgetLockingService.release_widget_lock`: delegates to
`CoreWidgetLocking.release_widget_lock` (which commits) and returns its
boolean; cache invalidation and event logging do not touch the two tables. -/
def release_widget_lock (st : DBState) (dashboard_id widget_id : Nat)
    (user_id : Nat) : Bool × DBState :=
  CoreWidgetLocking.release_widget_lock st dashboard_id widget_id user_id

/-- The unlocked/fail-open status record built by
`WidgetLockingService.get_widget_lock_status` both when no valid lock exists
and in its `except` branch. -/
def unlockedStatus (widget_id : Nat) : WidgetLockStatusResponse :=
  { widget_id := widget_id, is_locked := false, locked_by := none,
    locked_by_user_id := none, locked_at := none, expires_at := none,
    time_remaining := 0, can_acquire := true }

/-- `WidgetLockingService.get_widget_lock_status` on the cache-miss path:
unlocked when no active lock row exists or `now > expires_at`; otherwise
locked with `time_remaining = max(0, expires_at - now)` and
`can_acquire = (lock.user_id == current_user_id)`. -/
def get_widget_lock_status (st : DBState) (now : Int)
    (widget_id current_user_id : Nat) : WidgetLockStatusResponse :=
  match CoreWidgetLocking.get_active_widget_lock st.locks widget_id with
  | none => unlockedStatus widget_id
  | some lock =>
    if lock.expires_at < now then unlockedStatus widget_id
    else
      { widget_id := widget_id, is_locked := true,
        locked_by := some lock.user_name,
        locked_by_user_id := some lock.user_id,
        locked_at := some lock.locked_at,
        expires_at := some lock.expires_at,
        time_remaining := time_remaining lock now,
        can_acquire := lock.user_id == current_user_id }

/-- `WidgetLockingService.get_widget_lock_status` including its `except`
branch: when any internal error occurs (store or cache failure,
`internal_error = true`) the handler returns the fail-open unlocked status
regardless of the true lock state. -/
def get_widget_lock_status_result (st : DBState) (now : Int)
    (widget_id current_user_id : Nat) (internal_error : Bool) :
    WidgetLockStatusResponse :=
  if internal_error then unlockedStatus widget_id
  else get_widget_lock_status st now widget_id current_user_id

/-- `WidgetLockingService.stop_dashboard_editing`, transaction-local effect:
active session found → mark it inactive; only an inactive session found →
return True untouched; no session at all → set `is_active = False` on every
active lock of this user on this dashboard (the orphaned-lock recovery) and
return True. -/
def stop_dashboard_editing_txn (st : DBState) (dashboard_id user_id : Nat) :
    Bool × DBState :=
  match st.sessions.find? (fun s =>
      s.dashboard_id == dashboard_id && s.user_id == user_id && s.is_active) with
  | some _ =>
    let deactivated := updateFirst (fun s =>
        s.dashboard_id == dashboard_id && s.user_id == user_id && s.is_active)
      (fun s => { s with is_active := false }) st.sessions
    (true, { st with sessions := deactivated })
  | none =>
    match st.sessions.find? (fun s =>
        s.dashboard_id == dashboard_id && s.user_id == user_id &&
        s.is_active == false) with
    | some _ => (true, st)
    | none =>
      let locks2 := st.locks.map (fun l =>
        if l.dashboard_id == dashboard_id && l.user_id == user_id && l.is_active
        then { l with is_active := false } else l)
      (true, { st with locks := locks2 })

/-- `WidgetLockingService.stop_dashboard_editing`, durable effect: the
found-active-session branch calls `session.commit()`; the orphaned-lock
branch only calls `session.flush()` and returns from inside the
`db_manager.session()` block without committing, so its updates are rolled
back when the session closes and the durable state is unchanged. -/
def stop_dashboard_editing (st : DBState) (dashboard_id user_id : Nat) :
    Bool × DBState :=
  match st.sessions.find? (fun s =>
      s.dashboard_id == dashboard_id && s.user_id == user_id && s.is_active) with
  | some _ => stop_dashboard_editing_txn st dashboard_id user_id
  | none => (true, st)

/-- `WidgetLockingService.cleanup_stale_sessions_and_locks` (also the body of
the scheduled reaper cycle and of the `/cleanup/stale-sessions` endpoint):
calls `CoreWidgetLocking.cleanup_stale_sessions_and_locks` with the default
`session_timeout_minutes = 5` and returns its counts.  Neither the core
function (which only flushes) nor this wrapper ever calls
`session.commit()`, so the transaction is rolled back when the
`db_manager.session()` block closes and the durable state is unchanged. -/
def cleanup_stale_sessions_and_locks (st : DBState) (now : Int) :
    (Nat × Nat) × DBState :=
  ((CoreWidgetLocking.cleanup_stale_sessions_and_locks_txn st now 5).1, st)

end WidgetLockingService

/-- Primary-key well-formedness of the store: `widget_id` is the primary key
of `widget_locks` and `session_id` the primary key of `user_sessions`. -/
abbrev WFState (st : DBState) : Prop :=
  (st.locks.map (fun l => l.widget_id)).Nodup ∧
  (st.sessions.map (fun s => s.session_id)).Nodup

/-- The `locked_widgets` list of session `s` matches, as a set, the active
lock rows whose `session_id` is `s.session_id` (stated with bounded
quantifiers so that it is decidable on concrete states). -/
abbrev SessionLocksConsistent (st : DBState) (s : UserSessionRow) : Prop :=
  (∀ w ∈ s.locked_widgets, ∃ l ∈ st.locks,
      l.is_active = true ∧ l.session_id = s.session_id ∧ l.widget_id = w) ∧
  (∀ l ∈ st.locks, l.is_active = true → l.session_id = s.session_id →
      l.widget_id ∈ s.locked_widgets)

/-- Session consistency over every session row, as claimed by the spec. -/
abbrev SessionConsistent (st : DBState) : Prop :=
  ∀ s ∈ st.sessions, SessionLocksConsistent st s

/-- Session consistency restricted to the active session rows. -/
abbrev SessionConsistentActive (st : DBState) : Prop :=
  ∀ s ∈ st.sessions, s.is_active = true → SessionLocksConsistent st s

/-- Sample state: user A (id 5) holds an active lock on widget 1 of
dashboard 1 through session 10, acquired at t=0 with expiry t=100. -/
def lockA : WidgetLockRow :=
  { widget_id := 1, dashboard_id := 1, session_id := 10, user_id := 5,
    user_name := "A", locked_at := 0, expires_at := 100, last_heartbeat := 0,
    is_active := true }

def sessionA : UserSessionRow :=
  { session_id := 10, dashboard_id := 1, user_id := 5, user_name := "A",
    user_email := none, client_info := none, connected_at := 0,
    last_activity := 0, is_active := true, locked_widgets := [1] }

def userA : UserInfo :=
  { user_id := 5, user_name := "A", user_email := none, client_info := none }

def stA : DBState := { locks := [lockA], sessions := [sessionA] }

/-- C1: with an active, unexpired lock owned by user A on widget 1
(state `stA`, now = 50 < expires_at = 100), A's own AcquireLock call through
the service is denied ("Widget is locked by A") and mutates nothing, because
`WidgetLockingService.acquire_widget_lock` denies on any unexpired active
lock without comparing owners — even though the core layer,
`CoreWidgetLocking.acquire_widget_lock`, would have treated the same call as
an implicit refresh and extended the expiry to 110. -/
theorem acquire_by_owner_before_expiry_is_denied :
    (WidgetLockingService.acquire_widget_lock stA 50 1 1 userA 60 99 false).1.success
      = false ∧
    (WidgetLockingService.acquire_widget_lock stA 50 1 1 userA 60 99 false).1.message
      = "Widget is locked by A" ∧
    (WidgetLockingService.acquire_widget_lock stA 50 1 1 userA 60 99 false).2 = stA ∧
    (CoreWidgetLocking.acquire_widget_lock stA 50 1 1 userA 60 99 false).granted
      = true ∧
    (CoreWidgetLocking.acquire_widget_lock stA 50 1 1 userA 60 99 false).lockExpiresAt
      = some 110 := by
  decide

/-- Sample state: the lock of user C (id 7, session 20) on widget 5 of
dashboard 1 has expired at t=40, while session 20 is still active (recent
activity at t=45) and still lists widget 5 in `locked_widgets`. -/
def lockC : WidgetLockRow :=
  { widget_id := 5, dashboard_id := 1, session_id := 20, user_id := 7,
    user_name := "C", locked_at := 10, expires_at := 40, last_heartbeat := 10,
    is_active := true }

def sessionC : UserSessionRow :=
  { session_id := 20, dashboard_id := 1, user_id := 7, user_name := "C",
    user_email := none, client_info := none, connected_at := 10,
    last_activity := 45, is_active := true, locked_widgets := [5] }

def userB : UserInfo :=
  { user_id := 8, user_name := "B", user_email := none, client_info := none }

def stC : DBState := { locks := [lockC], sessions := [sessionC] }

/-- C3: on state `stC` at now = 50 the reaper counts and (inside the open
transaction) deletes the one expired lock, but because neither
`CoreWidgetLocking.cleanup_stale_sessions_and_locks` nor the service wrapper
ever commits, the durable state after the operation still contains the
expired lock row: the operation returns (1, 0) while deleting nothing. -/
theorem cleanup_counts_but_commits_nothing :
    (WidgetLockingService.cleanup_stale_sessions_and_locks stC 50).1 = (1, 0) ∧
    (WidgetLockingService.cleanup_stale_sessions_and_locks stC 50).2 = stC ∧
    (CoreWidgetLocking.cleanup_stale_sessions_and_locks_txn stC 50 5).2.locks
      = [] := by
  decide

/-- Sample state: an orphaned active lock of user 11 on widget 6 of
dashboard 3 (session 50), with no session row at all for that user. -/
def lockE : WidgetLockRow :=
  { widget_id := 6, dashboard_id := 3, session_id := 50, user_id := 11,
    user_name := "E", locked_at := 0, expires_at := 100, last_heartbeat := 0,
    is_active := true }

def stE : DBState := { locks := [lockE], sessions := [] }

/-- C9: StopEditing for (dashboard 3, user 11) on state `stE` — no session
row exists — returns True, and inside the open transaction it does set
`is_active = False` on the orphaned lock; but that branch never commits, so
the durable state is unchanged and the orphaned lock row is still active
after the call. -/
theorem stop_editing_orphan_cleanup_not_committed :
    (WidgetLockingService.stop_dashboard_editing stE 3 11).1 = true ∧
    (WidgetLockingService.stop_dashboard_editing stE 3 11).2 = stE ∧
    (∃ l ∈ (WidgetLockingService.stop_dashboard_editing stE 3 11).2.locks,
      l.dashboard_id = 3 ∧ l.user_id = 11 ∧ l.is_active = true) ∧
    (∀ l ∈ (WidgetLockingService.stop_dashboard_editing_txn stE 3 11).2.locks,
      l.is_active = false) := by
  decide

/-- C10: whenever any internal error occurs during GetLockStatus
(`internal_error = true`), the service fails open: the returned status has
`is_locked = false`, `time_remaining = 0` and `can_acquire = true`,
whatever the true lock state in the store is. -/
theorem lock_status_error_fails_open (st : DBState) (now : Int)
    (widget_id current_user_id : Nat) :
    (WidgetLockingService.get_widget_lock_status_result st now widget_id
        current_user_id true).is_locked = false ∧
    (WidgetLockingService.get_widget_lock_status_result st now widget_id
        current_user_id true).time_remaining = 0 ∧
    (WidgetLockingService.get_widget_lock_status_result st now widget_id
        current_user_id true).can_acquire = true :=
  ⟨rfl, rfl, rfl⟩

/-- Decomposition of a successful `find?`: the list splits at the first
element satisfying `p`, and `updateFirst` rewrites exactly that element. -/
theorem find?_decomp {p : α → Bool} :
    ∀ {xs : List α} {a : α}, xs.find? p = some a →
      ∃ s t, xs = s ++ a :: t ∧ (∀ x ∈ s, p x = false) ∧ p a = true ∧
        ∀ g : α → α, updateFirst p g xs = s ++ g a :: t
  | [], a, h => by simp at h
  | x :: xs, a, h => by
    by_cases hx : p x = true
    · rw [List.find?_cons_of_pos _ hx] at h
      obtain rfl : x = a := by injection h
      exact ⟨[], xs, rfl, by simp, hx, fun g => by simp [updateFirst, hx]⟩
    · rw [List.find?_cons_of_neg _ (by simpa using hx)] at h
      obtain ⟨s, t, hxs, hs, hpa, hupd⟩ := find?_decomp h
      refine ⟨x :: s, t, by simp [hxs], ?_, hpa, fun g => ?_⟩
      · intro y hy
        rcases List.mem_cons.mp hy with rfl | hy
        · simpa using hx
        · exact hs y hy
      · simp [updateFirst, hx, hupd g]

/-- `find?` commutes with a map that does not change the predicate. -/
theorem find?_map_invariant {p : α → Bool} {g : α → α}
    (hg : ∀ x, p (g x) = p x) :
    ∀ xs : List α, (xs.map g).find? p = (xs.find? p).map g
  | [] => rfl
  | x :: xs => by
    by_cases hx : p x = true
    · rw [List.map_cons, List.find?_cons_of_pos _ (by rw [hg x]; exact hx),
        List.find?_cons_of_pos _ hx, Option.map_some']
    · rw [List.map_cons, List.find?_cons_of_neg _ (by simp [hg x, hx]),
        List.find?_cons_of_neg _ (by simpa using hx)]
      exact find?_map_invariant hg xs

/-- In a list whose image under `f` has no duplicates, the elements around a
distinguished occurrence all map to something different from its image. -/
theorem nodup_map_decomp_ne {f : α → β} {s t : List α} {a : α}
    (h : ((s ++ a :: t).map f).Nodup) :
    ∀ x ∈ s ++ t, f x ≠ f a := by
  rw [List.map_append, List.map_cons, List.nodup_middle] at h
  rcases List.nodup_cons.mp h with ⟨hna, _⟩
  intro x hx hfx
  apply hna
  rw [← hfx]
  rcases List.mem_append.mp hx with hx | hx
  · exact List.mem_append.mpr (Or.inl (List.mem_map_of_mem f hx))
  · exact List.mem_append.mpr (Or.inr (List.mem_map_of_mem f hx))

/-- Two members of a list with `Nodup` image under `f` and equal images are
equal. -/
theorem eq_of_mem_nodup_map {f : α → β} {xs : List α}
    (h : (xs.map f).Nodup) {x y : α} (hx : x ∈ xs) (hy : y ∈ xs)
    (hf : f x = f y) : x = y :=
  List.inj_on_of_nodup_map h hx hy hf

/-- Sample state: user 9 ("D") holds an active lock on widget 3 of
dashboard 2 through session 40, but session 40 has already been marked
inactive (as `stop_dashboard_editing` does without releasing locks) and
still lists widget 3 in `locked_widgets`. -/
def lockD : WidgetLockRow :=
  { widget_id := 3, dashboard_id := 2, session_id := 40, user_id := 9,
    user_name := "D", locked_at := 0, expires_at := 100, last_heartbeat := 0,
    is_active := true }

def sessionD : UserSessionRow :=
  { session_id := 40, dashboard_id := 2, user_id := 9, user_name := "D",
    user_email := none, client_info := none, connected_at := 0,
    last_activity := 0, is_active := false, locked_widgets := [3] }

def stD : DBState := { locks := [lockD], sessions := [sessionD] }

/-- C4 (counterexample): on state `stD` the owner (user 9) releases widget 3
and the call returns true, but because `get_user_session` filters on
`is_active` and session 40 is inactive, widget 3 is NOT removed from the
owning session's `locked_widgets` — contradicting the claim that an
owner-release always removes the widget from the owning session's set. -/
theorem release_skips_inactive_owner_session :
    (CoreWidgetLocking.release_widget_lock stD 2 3 9).1 = true ∧
    ∃ s ∈ (CoreWidgetLocking.release_widget_lock stD 2 3 9).2.sessions,
      s.session_id = 40 ∧ 3 ∈ s.locked_widgets := by
  decide

/-- C4 (amended): on a well-formed store, ReleaseLock returns true and
mutates nothing when no active lock for the widget exists on that
dashboard; returns false and mutates nothing when the active lock belongs
to another user; and when the requester owns the lock it returns true,
leaves no active lock for that widget on that dashboard, and removes the
widget from the owning session's `locked_widgets` — provided that session
is still active (an inactive owning session keeps its stale entry). -/
theorem release_widget_lock_characterization (st : DBState)
    (dashboard_id widget_id user_id : Nat) (hwf : WFState st) :
    (st.locks.find? (CoreWidgetLocking.release_lock_pred dashboard_id widget_id)
        = none →
      CoreWidgetLocking.release_widget_lock st dashboard_id widget_id user_id
        = (true, st)) ∧
    (∀ l, st.locks.find?
        (CoreWidgetLocking.release_lock_pred dashboard_id widget_id) = some l →
      l.user_id ≠ user_id →
      CoreWidgetLocking.release_widget_lock st dashboard_id widget_id user_id
        = (false, st)) ∧
    (∀ l, st.locks.find?
        (CoreWidgetLocking.release_lock_pred dashboard_id widget_id) = some l →
      l.user_id = user_id →
      (CoreWidgetLocking.release_widget_lock st dashboard_id widget_id user_id).1
        = true ∧
      ((CoreWidgetLocking.release_widget_lock st dashboard_id widget_id
          user_id).2.locks.find?
        (CoreWidgetLocking.release_lock_pred dashboard_id widget_id)) = none ∧
      (∀ s ∈ (CoreWidgetLocking.release_widget_lock st dashboard_id widget_id
          user_id).2.sessions,
        s.is_active = true → s.session_id = l.session_id →
        widget_id ∉ s.locked_widgets)) := by
  refine ⟨?_, ?_, ?_⟩
  · intro h
    simp [CoreWidgetLocking.release_widget_lock, h]
  · intro l hl hne
    simp [CoreWidgetLocking.release_widget_lock, hl, hne]
  · intro l hl heq
    have hpl := List.find?_some hl
    have hlw : l.widget_id = widget_id := by
      have := hpl
      simp [CoreWidgetLocking.release_lock_pred] at this
      exact this.1.1
    have hla : l.is_active = true := by
      have := hpl
      simp [CoreWidgetLocking.release_lock_pred] at this
      exact this.2
    obtain ⟨A, B, hAB, hAfree, _, hupd⟩ := find?_decomp hl
    have hlocks2 :
        (CoreWidgetLocking.release_widget_lock st dashboard_id widget_id
          user_id).2.locks =
        A ++ { l with is_active := false } :: B := by
      simp [CoreWidgetLocking.release_widget_lock, hl, heq,
        hupd (fun x => { x with is_active := false })]
    have hfindnone :
        (A ++ { l with is_active := false } :: B).find?
          (CoreWidgetLocking.release_lock_pred dashboard_id widget_id) = none := by
      have hwnodup := hwf.1
      rw [hAB] at hwnodup
      have hne2 := nodup_map_decomp_ne hwnodup
      rw [List.find?_append, List.find?_eq_none.mpr
        (fun x hx => by simp [hAfree x hx]), Option.none_or]
      rw [List.find?_cons_of_neg _
        (by simp [CoreWidgetLocking.release_lock_pred])]
      refine List.find?_eq_none.mpr (fun x hx hpx => ?_)
      have : x.widget_id = widget_id := by
        simp [CoreWidgetLocking.release_lock_pred] at hpx
        exact hpx.1.1
      exact hne2 x (List.mem_append.mpr (Or.inr hx)) (this.trans hlw.symm)
    refine ⟨by simp [CoreWidgetLocking.release_widget_lock, hl, heq], by
      rw [hlocks2]; exact hfindnone, ?_⟩
    intro s hs hact hsid
    rcases hsf : st.sessions.find?
        (fun x => x.session_id == l.session_id && x.is_active) with _ | us
    · exfalso
      have := List.find?_eq_none.mp hsf s (by
        have : (CoreWidgetLocking.release_widget_lock st dashboard_id widget_id
            user_id).2.sessions = st.sessions := by
          simp [CoreWidgetLocking.release_widget_lock, hl, heq, hsf]
        rw [← this]; exact hs)
      simp [hsid, hact] at this
    · have hpus := List.find?_some hsf
      have husid : us.session_id = l.session_id := by
        simp at hpus; exact hpus.1
      have husact : us.is_active = true := by
        simp at hpus; exact hpus.2
      by_cases hwin : widget_id ∈ us.locked_widgets
      · obtain ⟨S1, S2, hS, hS1free, _, hsupd⟩ := find?_decomp hsf
        have hsessions2 :
            (CoreWidgetLocking.release_widget_lock st dashboard_id widget_id
              user_id).2.sessions =
            S1 ++ { us with locked_widgets :=
              us.locked_widgets.filter (fun x => x != widget_id) } :: S2 := by
          simp [CoreWidgetLocking.release_widget_lock, hl, heq, hsf, hwin,
            hsupd (fun x => { x with locked_widgets :=
              x.locked_widgets.filter (fun y => y != widget_id) })]
        have hsnodup := hwf.2
        rw [hS] at hsnodup
        have hsne := nodup_map_decomp_ne hsnodup
        rw [hsessions2] at hs
        rcases List.mem_append.mp hs with hmem | hmem
        · exfalso
          exact hsne s (List.mem_append.mpr (Or.inl hmem))
            (by rw [hsid, husid])
        · rcases List.mem_cons.mp hmem with rfl | hmem
          · simp
          · exfalso
            exact hsne s (List.mem_append.mpr (Or.inr hmem))
              (by rw [hsid, husid])
      · have hsessions2 :
            (CoreWidgetLocking.release_widget_lock st dashboard_id widget_id
              user_id).2.sessions = st.sessions := by
          simp [CoreWidgetLocking.release_widget_lock, hl, heq, hsf, hwin]
        rw [hsessions2] at hs
        have husmem := List.mem_of_find?_eq_some hsf
        have hseq : s = us :=
          eq_of_mem_nodup_map hwf.2 hs husmem (by rw [hsid, husid])
        rw [hseq]
        exact hwin

/-- C5: RefreshLock mutates the lock if and only if an active lock for the
widget exists, is owned by the requester, and is not yet expired; in every
other case it fails with the corresponding reason and leaves the store
untouched.  In particular a heartbeat arriving after expiry
(`expires_at < now`) is rejected, never treated as a renewal.  On success
the lock's expiry becomes `now + 120` (the service's
`lock_expiration_threshold`) and its `last_heartbeat` becomes `now`. -/
theorem refresh_widget_lock_characterization (st : DBState) (now : Int)
    (dashboard_id widget_id user_id : Nat) :
    (CoreWidgetLocking.get_active_widget_lock st.locks widget_id = none →
      WidgetLockingService.refresh_widget_lock st now dashboard_id widget_id
        user_id =
      ({ success := false, widget_id := widget_id, expires_at := now,
         message := "Widget lock not found or already released" }, st)) ∧
    (∀ l, CoreWidgetLocking.get_active_widget_lock st.locks widget_id = some l →
      l.user_id ≠ user_id →
      WidgetLockingService.refresh_widget_lock st now dashboard_id widget_id
        user_id =
      ({ success := false, widget_id := widget_id, expires_at := l.expires_at,
         message := "You don't own this widget lock" }, st)) ∧
    (∀ l, CoreWidgetLocking.get_active_widget_lock st.locks widget_id = some l →
      l.user_id = user_id → l.expires_at < now →
      WidgetLockingService.refresh_widget_lock st now dashboard_id widget_id
        user_id =
      ({ success := false, widget_id := widget_id, expires_at := l.expires_at,
         message := "Widget lock has expired" }, st)) ∧
    (∀ l, CoreWidgetLocking.get_active_widget_lock st.locks widget_id = some l →
      l.user_id = user_id → ¬ l.expires_at < now →
      (WidgetLockingService.refresh_widget_lock st now dashboard_id widget_id
          user_id).1 =
        { success := true, widget_id := widget_id, expires_at := now + 120,
          message := "Widget lock heartbeat refreshed" } ∧
      CoreWidgetLocking.get_active_widget_lock
        (WidgetLockingService.refresh_widget_lock st now dashboard_id widget_id
          user_id).2.locks widget_id =
        some { l with expires_at := now + 120, last_heartbeat := now }) := by
  refine ⟨?_, ?_, ?_, ?_⟩
  · intro h
    simp [WidgetLockingService.refresh_widget_lock, h]
  · intro l hl hne
    simp [WidgetLockingService.refresh_widget_lock, hl, hne]
  · intro l hl heq hexp
    simp [WidgetLockingService.refresh_widget_lock, hl, heq, hexp]
  · intro l hl heq hexp
    constructor
    · simp [WidgetLockingService.refresh_widget_lock, hl, heq, hexp]
    · have hlocks :
          (WidgetLockingService.refresh_widget_lock st now dashboard_id
            widget_id user_id).2.locks =
          st.locks.map (fun x =>
            if x.widget_id == l.widget_id then
              { x with expires_at := now + 120, last_heartbeat := now }
            else x) := by
        simp [WidgetLockingService.refresh_widget_lock, hl, heq, hexp]
      rw [hlocks]
      unfold CoreWidgetLocking.get_active_widget_lock
      rw [find?_map_invariant (fun x => by
        by_cases hx : x.widget_id == l.widget_id <;> simp [hx])]
      have hl2 : st.locks.find?
          (fun x => x.widget_id == widget_id && x.is_active) = some l := hl
      rw [hl2, Option.map_some']
      simp

/-- C6: on a well-formed store, the status view satisfies: `is_locked` is
true exactly when an active lock row for the widget exists with
`now ≤ expires_at` (a row with `is_active = true` but `now > expires_at` is
reported as unlocked); `time_remaining` is never negative; and
`can_acquire` is true exactly when the widget is reported unlocked or the
valid lock is held by the calling user. -/
theorem get_widget_lock_status_properties (st : DBState) (now : Int)
    (widget_id current_user_id : Nat) (hwf : WFState st) :
    ((WidgetLockingService.get_widget_lock_status st now widget_id
        current_user_id).is_locked = true ↔
      ∃ l ∈ st.locks, l.widget_id = widget_id ∧ l.is_active = true ∧
        now ≤ l.expires_at) ∧
    0 ≤ (WidgetLockingService.get_widget_lock_status st now widget_id
        current_user_id).time_remaining ∧
    ((WidgetLockingService.get_widget_lock_status st now widget_id
        current_user_id).can_acquire = true ↔
      ((WidgetLockingService.get_widget_lock_status st now widget_id
          current_user_id).is_locked = false ∨
        ∃ l ∈ st.locks, l.widget_id = widget_id ∧ l.is_active = true ∧
          now ≤ l.expires_at ∧ l.user_id = current_user_id)) := by
  rcases hfind : CoreWidgetLocking.get_active_widget_lock st.locks widget_id
    with _ | l
  · have hnone : ∀ x ∈ st.locks,
        ¬(x.widget_id == widget_id && x.is_active) = true :=
      List.find?_eq_none.mp hfind
    have hnoex : ¬ ∃ l ∈ st.locks, l.widget_id = widget_id ∧
        l.is_active = true ∧ now ≤ l.expires_at := by
      rintro ⟨x, hx, hw, ha, _⟩
      exact hnone x hx (by simp [hw, ha])
    refine ⟨?_, ?_, ?_⟩
    · simp [WidgetLockingService.get_widget_lock_status, hfind,
        WidgetLockingService.unlockedStatus, hnoex]
    · simp [WidgetLockingService.get_widget_lock_status, hfind,
        WidgetLockingService.unlockedStatus]
    · simp [WidgetLockingService.get_widget_lock_status, hfind,
        WidgetLockingService.unlockedStatus]
  · have hmem := List.mem_of_find?_eq_some hfind
    have hpl := List.find?_some hfind
    have hlw : l.widget_id = widget_id := by simp at hpl; exact hpl.1
    have hla : l.is_active = true := by simp at hpl; exact hpl.2
    have huniq : ∀ x ∈ st.locks, x.widget_id = widget_id → x = l := by
      intro x hx hxw
      exact eq_of_mem_nodup_map hwf.1 hx hmem (by rw [hxw, hlw])
    by_cases hexp : l.expires_at < now
    · have hnoex : ¬ ∃ x ∈ st.locks, x.widget_id = widget_id ∧
          x.is_active = true ∧ now ≤ x.expires_at := by
        rintro ⟨x, hx, hw, _, hle⟩
        rw [huniq x hx hw] at hle
        omega
      refine ⟨?_, ?_, ?_⟩
      · simp [WidgetLockingService.get_widget_lock_status, hfind, hexp,
          WidgetLockingService.unlockedStatus, hnoex]
      · simp [WidgetLockingService.get_widget_lock_status, hfind, hexp,
          WidgetLockingService.unlockedStatus]
      · simp [WidgetLockingService.get_widget_lock_status, hfind, hexp,
          WidgetLockingService.unlockedStatus]
    · have hle : now ≤ l.expires_at := by omega
      refine ⟨?_, ?_, ?_⟩
      · simp only [WidgetLockingService.get_widget_lock_status, hfind,
          if_neg hexp]
        exact ⟨fun _ => ⟨l, hmem, hlw, hla, hle⟩, fun _ => trivial⟩
      · simp only [WidgetLockingService.get_widget_lock_status, hfind,
          if_neg hexp, time_remaining]
        exact le_max_left 0 _
      · simp only [WidgetLockingService.get_widget_lock_status, hfind,
          if_neg hexp]
        constructor
        · intro hbe
          exact Or.inr ⟨l, hmem, hlw, hla, hle, by simpa using hbe⟩
        · rintro (hfalse | ⟨x, hx, hw, _, _, hu⟩)
          · simp at hfalse
          · rw [huniq x hx hw] at hu
            simp [hu]

def stEmpty : DBState := { locks := [], sessions := [] }

/-- C7 (counterexample): AcquireLock with `leaseDurationSeconds = 10` on an
empty store succeeds and stores a lock with
`expires_at - locked_at = 10`, outside [30, 300]: the engine applies the
caller-supplied duration unmodified, nothing clamps it. -/
theorem acquire_applies_unclamped_duration :
    (WidgetLockingService.acquire_widget_lock stEmpty 0 1 1 userA 10 30
      false).1.success = true ∧
    ((CoreWidgetLocking.find_widget_lock_row
        (WidgetLockingService.acquire_widget_lock stEmpty 0 1 1 userA 10 30
          false).2.locks 1).map
      (fun l => l.expires_at - l.locked_at)) = some 10 ∧
    ¬ ((30 : Int) ≤ 10) := by
  decide

/-- When the core acquire succeeds, the stored row for the widget is exactly
the returned lock, freshly stamped with `locked_at = now` and
`expires_at = now + lock_duration`. -/
theorem acquire_widget_lock_ok_lock (st : DBState) (now : Int)
    (dashboard_id widget_id : Nat) (u : UserInfo) (lock_duration : Int)
    (fresh_session_id : Nat) :
    ∀ lock st2, CoreWidgetLocking.acquire_widget_lock st now dashboard_id
        widget_id u lock_duration fresh_session_id false = .ok lock st2 →
      CoreWidgetLocking.find_widget_lock_row st2.locks widget_id = some lock ∧
      lock.locked_at = now ∧ lock.expires_at = now + lock_duration := by
  intro lock st2 hok
  rcases hrow : CoreWidgetLocking.find_widget_lock_row st.locks widget_id
    with _ | row
  · rw [CoreWidgetLocking.acquire_widget_lock, hrow] at hok
    rw [CoreWidgetLocking.acquire_widget_lock_upsert] at hok
    simp only [if_neg (Bool.false_ne_true)] at hok
    rw [hrow] at hok
    injection hok with h1 h2
    subst h1
    subst h2
    refine ⟨?_, rfl, rfl⟩
    unfold CoreWidgetLocking.find_widget_lock_row at hrow ⊢
    rw [List.find?_append, hrow, Option.none_or]
    simp
  · simp only [CoreWidgetLocking.acquire_widget_lock, hrow] at hok
    by_cases hdeny : row.is_active = true ∧ now < row.expires_at ∧
        row.user_id ≠ u.user_id
    · rw [if_pos hdeny] at hok
      cases hok
    · rw [if_neg hdeny] at hok
      rw [CoreWidgetLocking.acquire_widget_lock_upsert] at hok
      simp only [if_neg (Bool.false_ne_true)] at hok
      rw [hrow] at hok
      injection hok with h1 h2
      subst h1
      subst h2
      obtain ⟨A, B, _, hAfree, _, hupd⟩ := find?_decomp hrow
      refine ⟨?_, rfl, rfl⟩
      unfold CoreWidgetLocking.find_widget_lock_row
      rw [hupd]
      rw [List.find?_append, List.find?_eq_none.mpr
        (fun x hx => by simp [hAfree x hx]), Option.none_or]
      simp

/-- C7 (amended): lease durations are not clamped but validated — the HTTP
schema rejects any `lock_duration` outside [30, 300] — and an acquisition
whose duration passed that validation succeeds (if at all) with
`expires_at - locked_at` equal to the supplied duration, hence within
[30, 300]. -/
theorem validated_lease_duration_within_bounds (st : DBState) (now : Int)
    (dashboard_id widget_id : Nat) (u : UserInfo) (dur dur2 : Int)
    (fresh_session_id : Nat)
    (hv : validate_lock_duration dur = some dur2)
    (hs : (WidgetLockingService.acquire_widget_lock st now dashboard_id
        widget_id u dur2 fresh_session_id false).1.success = true) :
    30 ≤ dur2 ∧ dur2 ≤ 300 ∧
    (CoreWidgetLocking.find_widget_lock_row
        (WidgetLockingService.acquire_widget_lock st now dashboard_id widget_id
          u dur2 fresh_session_id false).2.locks widget_id).map
      (fun l => l.expires_at - l.locked_at) = some dur2 := by
  have hb : 30 ≤ dur2 ∧ dur2 ≤ 300 := by
    unfold validate_lock_duration at hv
    by_cases hr : 30 ≤ dur ∧ dur ≤ 300
    · rw [if_pos hr] at hv
      injection hv with h
      subst h
      exact hr
    · rw [if_neg hr] at hv
      cases hv
  have harith : now + dur2 - now = dur2 := by ring
  refine ⟨hb.1, hb.2, ?_⟩
  rcases hga : CoreWidgetLocking.get_active_widget_lock st.locks widget_id
    with _ | db_lock
  · simp only [WidgetLockingService.acquire_widget_lock, hga] at hs ⊢
    rcases hcore : CoreWidgetLocking.acquire_widget_lock st now dashboard_id
        widget_id u dur2 fresh_session_id false with ⟨lock, st2⟩ | ⟨msg, st2⟩
    · simp only [hcore] at hs ⊢
      obtain ⟨hfind, hlocked, hexp⟩ := acquire_widget_lock_ok_lock st now
        dashboard_id widget_id u dur2 fresh_session_id lock st2 hcore
      rw [hfind, Option.map_some', hexp, hlocked, harith]
    · simp only [hcore] at hs
      exact Bool.noConfusion hs
  · by_cases hdl : db_lock.expires_at < now
    · simp only [WidgetLockingService.acquire_widget_lock, hga, if_pos hdl]
        at hs ⊢
      rcases hcore : CoreWidgetLocking.acquire_widget_lock st now dashboard_id
          widget_id u dur2 fresh_session_id false with ⟨lock, st2⟩ | ⟨msg, st2⟩
      · simp only [hcore] at hs ⊢
        obtain ⟨hfind, hlocked, hexp⟩ := acquire_widget_lock_ok_lock st now
          dashboard_id widget_id u dur2 fresh_session_id lock st2 hcore
        rw [hfind, Option.map_some', hexp, hlocked, harith]
      · simp only [hcore] at hs
        exact Bool.noConfusion hs
    · simp only [WidgetLockingService.acquire_widget_lock, hga, if_neg hdl]
        at hs
      exact Bool.noConfusion hs

/-- C8 (counterexample): when the store raises at the lock upsert
(`upsert_fails = true`) during an acquisition on an empty store, the call
does return success=false, but the durable state is NOT the initial one:
the freshly created UserSession row (session 30) was committed by
`get_or_create_user_session` before the upsert and persists. -/
theorem failed_upsert_leaves_committed_session :
    (WidgetLockingService.acquire_widget_lock stEmpty 0 1 1 userA 60 30
      true).1.success = false ∧
    (WidgetLockingService.acquire_widget_lock stEmpty 0 1 1 userA 60 30
      true).2 ≠ stEmpty ∧
    ∃ s ∈ (WidgetLockingService.acquire_widget_lock stEmpty 0 1 1 userA 60 30
      true).2.sessions, s.session_id = 30 ∧ s.is_active = true := by
  decide

/-- If the first row for a widget is active, it is also the first active row
for that widget. -/
theorem get_active_of_find_row_active {locks : List WidgetLockRow}
    {widget_id : Nat} {row : WidgetLockRow}
    (hrow : CoreWidgetLocking.find_widget_lock_row locks widget_id = some row)
    (hact : row.is_active = true) :
    CoreWidgetLocking.get_active_widget_lock locks widget_id = some row := by
  obtain ⟨A, B, hAB, hAfree, hpr, _⟩ := find?_decomp hrow
  unfold CoreWidgetLocking.get_active_widget_lock
  rw [hAB, List.find?_append, List.find?_eq_none.mpr
    (fun x hx => by simp [hAfree x hx]), Option.none_or,
    List.find?_cons_of_pos _ (by simp only [hact, Bool.and_true]; exact hpr)]

/-- Behaviour of the core acquire when the lock upsert raises: it reports an
error, leaves the lock table at its pre-call durable content, and — unless
it denied first — the session committed by `get_or_create_user_session`
persists; in particular a new session row for a previously session-less
(dashboard, user) pair remains in the durable state. -/
theorem acquire_core_upsert_failure_spec (st : DBState) (now : Int)
    (dashboard_id widget_id : Nat) (u : UserInfo) (lock_duration : Int)
    (fresh_session_id : Nat) :
    (CoreWidgetLocking.acquire_widget_lock st now dashboard_id widget_id u
      lock_duration fresh_session_id true).granted = false ∧
    (CoreWidgetLocking.acquire_widget_lock st now dashboard_id widget_id u
      lock_duration fresh_session_id true).state.locks = st.locks ∧
    ((∀ row, CoreWidgetLocking.find_widget_lock_row st.locks widget_id
        = some row →
      ¬(row.is_active = true ∧ now < row.expires_at ∧
        row.user_id ≠ u.user_id)) →
      st.sessions.find? (CoreWidgetLocking.user_session_pred dashboard_id
        u.user_id) = none →
      ∃ s ∈ (CoreWidgetLocking.acquire_widget_lock st now dashboard_id
          widget_id u lock_duration fresh_session_id true).state.sessions,
        s.session_id = fresh_session_id ∧ s.is_active = true ∧
        s.dashboard_id = dashboard_id ∧ s.user_id = u.user_id) := by
  have hupsert : ∀ hsf : st.sessions.find?
      (CoreWidgetLocking.user_session_pred dashboard_id u.user_id) = none,
      CoreWidgetLocking.acquire_widget_lock_upsert st now dashboard_id
        widget_id u lock_duration fresh_session_id true =
      .err "store error during lock upsert"
        { st with sessions := st.sessions ++
          [{ session_id := fresh_session_id, dashboard_id := dashboard_id,
             user_id := u.user_id, user_name := u.user_name,
             user_email := u.user_email, client_info := u.client_info,
             connected_at := now, last_activity := now,
             is_active := true, locked_widgets := [] }] } := by
    intro hsf
    simp [CoreWidgetLocking.acquire_widget_lock_upsert,
      CoreWidgetLocking.get_or_create_user_session, hsf]
  rcases hrow : CoreWidgetLocking.find_widget_lock_row st.locks widget_id
    with _ | row
  · simp only [CoreWidgetLocking.acquire_widget_lock, hrow]
    refine ⟨?_, ?_, ?_⟩
    · simp [CoreWidgetLocking.acquire_widget_lock_upsert,
        CoreWidgetLocking.AcquireCoreResult.granted]
    · rcases hsf : st.sessions.find?
          (CoreWidgetLocking.user_session_pred dashboard_id u.user_id)
        with _ | s
      · rw [hupsert hsf]
        rfl
      · simp [CoreWidgetLocking.acquire_widget_lock_upsert,
          CoreWidgetLocking.get_or_create_user_session, hsf,
          CoreWidgetLocking.AcquireCoreResult.state]
    · intro _ hsf
      rw [hupsert hsf]
      refine ⟨_, List.mem_append.mpr (Or.inr (List.mem_singleton.mpr rfl)),
        rfl, rfl, rfl, rfl⟩
  · simp only [CoreWidgetLocking.acquire_widget_lock, hrow]
    by_cases hdeny : row.is_active = true ∧ now < row.expires_at ∧
        row.user_id ≠ u.user_id
    · rw [if_pos hdeny]
      refine ⟨rfl, rfl, ?_⟩
      intro hno _
      exact absurd hdeny (hno row rfl)
    · rw [if_neg hdeny]
      refine ⟨?_, ?_, ?_⟩
      · simp [CoreWidgetLocking.acquire_widget_lock_upsert,
          CoreWidgetLocking.AcquireCoreResult.granted]
      · rcases hsf : st.sessions.find?
            (CoreWidgetLocking.user_session_pred dashboard_id u.user_id)
          with _ | s
        · rw [hupsert hsf]
          rfl
        · simp [CoreWidgetLocking.acquire_widget_lock_upsert,
            CoreWidgetLocking.get_or_create_user_session, hsf,
            CoreWidgetLocking.AcquireCoreResult.state]
      · intro _ hsf
        rw [hupsert hsf]
        refine ⟨_, List.mem_append.mpr (Or.inr (List.mem_singleton.mpr rfl)),
          rfl, rfl, rfl, rfl⟩

/-- C8 (amended): when the store raises at the lock upsert, AcquireLock
returns a structured `success=false` response (no exception escapes) and the
lock table is left unchanged — but the operation is not atomic: if the
requester had no active session on the dashboard (and no unexpired active
lock blocked the call), the UserSession row created by
`get_or_create_user_session` was committed before the upsert and persists
in the durable state. -/
theorem acquire_store_error_aborts_lock_but_commits_session (st : DBState)
    (now : Int) (dashboard_id widget_id : Nat) (u : UserInfo)
    (lock_duration : Int) (fresh_session_id : Nat) :
    (WidgetLockingService.acquire_widget_lock st now dashboard_id widget_id u
      lock_duration fresh_session_id true).1.success = false ∧
    (WidgetLockingService.acquire_widget_lock st now dashboard_id widget_id u
      lock_duration fresh_session_id true).2.locks = st.locks ∧
    ((∀ l, CoreWidgetLocking.get_active_widget_lock st.locks widget_id
        = some l → l.expires_at < now) →
      st.sessions.find? (CoreWidgetLocking.user_session_pred dashboard_id
        u.user_id) = none →
      ∃ s ∈ (WidgetLockingService.acquire_widget_lock st now dashboard_id
          widget_id u lock_duration fresh_session_id true).2.sessions,
        s.session_id = fresh_session_id ∧ s.is_active = true ∧
        s.dashboard_id = dashboard_id ∧ s.user_id = u.user_id) := by
  obtain ⟨hg, hlk, hsess⟩ := acquire_core_upsert_failure_spec st now
    dashboard_id widget_id u lock_duration fresh_session_id
  rcases hga : CoreWidgetLocking.get_active_widget_lock st.locks widget_id
    with _ | db_lock
  · rcases hc : CoreWidgetLocking.acquire_widget_lock st now dashboard_id
        widget_id u lock_duration fresh_session_id true
      with ⟨lock, st2⟩ | ⟨msg, st2⟩
    · rw [hc] at hg
      cases hg
    · have hs_eq : WidgetLockingService.acquire_widget_lock st now dashboard_id
          widget_id u lock_duration fresh_session_id true =
          ({ success := false, widget_id := widget_id, session_id := 0,
             expires_at := now,
             message := "Failed to acquire lock: " ++ msg }, st2) := by
        simp only [WidgetLockingService.acquire_widget_lock, hga, hc]
      rw [hc] at hlk hsess
      refine ⟨by rw [hs_eq], by rw [hs_eq]; exact hlk, ?_⟩
      intro _ h2
      have hno : ∀ row, CoreWidgetLocking.find_widget_lock_row st.locks
          widget_id = some row →
          ¬(row.is_active = true ∧ now < row.expires_at ∧
            row.user_id ≠ u.user_id) := by
        rintro row hr ⟨ha, _, _⟩
        rw [get_active_of_find_row_active hr ha] at hga
        cases hga
      rw [hs_eq]
      exact hsess hno h2
  · by_cases hdl : db_lock.expires_at < now
    · rcases hc : CoreWidgetLocking.acquire_widget_lock st now dashboard_id
          widget_id u lock_duration fresh_session_id true
        with ⟨lock, st2⟩ | ⟨msg, st2⟩
      · rw [hc] at hg
        cases hg
      · have hs_eq : WidgetLockingService.acquire_widget_lock st now
            dashboard_id widget_id u lock_duration fresh_session_id true =
            ({ success := false, widget_id := widget_id, session_id := 0,
               expires_at := now,
               message := "Failed to acquire lock: " ++ msg }, st2) := by
          simp only [WidgetLockingService.acquire_widget_lock, hga,
            if_pos hdl, hc]
        rw [hc] at hlk hsess
        refine ⟨by rw [hs_eq], by rw [hs_eq]; exact hlk, ?_⟩
        intro _ h2
        have hno : ∀ row, CoreWidgetLocking.find_widget_lock_row st.locks
            widget_id = some row →
            ¬(row.is_active = true ∧ now < row.expires_at ∧
              row.user_id ≠ u.user_id) := by
          rintro row hr ⟨ha, hlt, _⟩
          rw [get_active_of_find_row_active hr ha] at hga
          injection hga with hga2
          rw [← hga2] at hdl
          omega
        rw [hs_eq]
        exact hsess hno h2
    · have hs_eq : WidgetLockingService.acquire_widget_lock st now dashboard_id
          widget_id u lock_duration fresh_session_id true =
          ({ success := false, widget_id := widget_id,
             session_id := db_lock.session_id, expires_at := db_lock.expires_at,
             message := "Widget is locked by " ++ db_lock.user_name }, st) := by
        simp only [WidgetLockingService.acquire_widget_lock, hga, if_neg hdl]
      refine ⟨by rw [hs_eq], by rw [hs_eq], ?_⟩
      intro h1 _
      exact absurd (h1 db_lock rfl) hdl

/-- C2 (counterexample): state `stC` is session-consistent (session 20 holds
widget 5 and the widget-5 lock row references session 20), but after user B
successfully acquires widget 5 — allowed because the lock has expired — the
lock row is upserted to B's new session while widget 5 is never removed
from session 20's `locked_widgets`, so the consistency invariant is broken
by a completed acquire operation. -/
theorem session_consistency_broken_by_acquire :
    SessionConsistent stC ∧
    (WidgetLockingService.acquire_widget_lock stC 50 1 5 userB 60 30
      false).1.success = true ∧
    ¬ SessionConsistent (WidgetLockingService.acquire_widget_lock stC 50 1 5
      userB 60 30 false).2 := by
  decide

/-- C2 (amended): on a well-formed store, ReleaseLock preserves session
consistency for the active sessions: if every active session's
`locked_widgets` matches the active lock rows referencing it before the
call, the same holds after the call. -/
theorem release_preserves_session_consistency (st : DBState)
    (dashboard_id widget_id user_id : Nat) (hwf : WFState st)
    (hc : SessionConsistentActive st) :
    SessionConsistentActive
      (CoreWidgetLocking.release_widget_lock st dashboard_id widget_id
        user_id).2 := by
  rcases hl : st.locks.find?
      (CoreWidgetLocking.release_lock_pred dashboard_id widget_id)
    with _ | l
  · have hres : (CoreWidgetLocking.release_widget_lock st dashboard_id
        widget_id user_id).2 = st := by
      simp [CoreWidgetLocking.release_widget_lock, hl]
    rw [hres]
    exact hc
  · by_cases hu : l.user_id = user_id
    case neg =>
      have hres : (CoreWidgetLocking.release_widget_lock st dashboard_id
          widget_id user_id).2 = st := by
        simp [CoreWidgetLocking.release_widget_lock, hl, hu]
      rw [hres]
      exact hc
    case pos =>
      have hpl := List.find?_some hl
      have hlw : l.widget_id = widget_id := by
        simp [CoreWidgetLocking.release_lock_pred] at hpl
        exact hpl.1.1
      have hla : l.is_active = true := by
        simp [CoreWidgetLocking.release_lock_pred] at hpl
        exact hpl.2
      have hlmem : l ∈ st.locks := List.mem_of_find?_eq_some hl
      obtain ⟨A, B, hAB, hAfree, _, hupd⟩ := find?_decomp hl
      have hwnodup := hwf.1
      rw [hAB] at hwnodup
      have hWne := nodup_map_decomp_ne hwnodup
      have htrans : ∀ (sid w' : Nat), (sid ≠ l.session_id ∨ w' ≠ widget_id) →
          ((∃ x ∈ A ++ { l with is_active := false } :: B,
              x.is_active = true ∧ x.session_id = sid ∧ x.widget_id = w') ↔
           (∃ x ∈ st.locks,
              x.is_active = true ∧ x.session_id = sid ∧ x.widget_id = w')) := by
        intro sid w' hside
        rw [hAB]
        constructor
        · rintro ⟨x, hx, hxa, hxs, hxw⟩
          rcases List.mem_append.mp hx with hmA | hxc
          · exact ⟨x, List.mem_append.mpr (Or.inl hmA), hxa, hxs, hxw⟩
          · rcases List.mem_cons.mp hxc with rfl | hmB
            · simp at hxa
            · exact ⟨x, List.mem_append.mpr (Or.inr
                (List.mem_cons.mpr (Or.inr hmB))), hxa, hxs, hxw⟩
        · rintro ⟨x, hx, hxa, hxs, hxw⟩
          rcases List.mem_append.mp hx with hmA | hxc
          · exact ⟨x, List.mem_append.mpr (Or.inl hmA), hxa, hxs, hxw⟩
          · rcases List.mem_cons.mp hxc with rfl | hmB
            · rcases hside with hs1 | hs2
              · exact absurd hxs.symm hs1
              · exact absurd (by rw [← hxw, hlw]) hs2
            · exact ⟨x, List.mem_append.mpr (Or.inr
                (List.mem_cons.mpr (Or.inr hmB))), hxa, hxs, hxw⟩
      have hkeep : ∀ s2 : UserSessionRow, s2 ∈ st.sessions →
          s2.is_active = true → s2.session_id ≠ l.session_id →
          ∀ SS : List UserSessionRow,
            SessionLocksConsistent
              { locks := A ++ { l with is_active := false } :: B,
                sessions := SS } s2 := by
        intro s2 hs2 hact2 hsid2 SS
        constructor
        · intro w' hw'
          exact (htrans s2.session_id w' (Or.inl hsid2)).mpr
            ((hc s2 hs2 hact2).1 w' hw')
        · intro x hx hxa hxs
          obtain ⟨y, hy, hya, hys, hyw⟩ :=
            (htrans s2.session_id x.widget_id (Or.inl hsid2)).mp
              ⟨x, hx, hxa, hxs, rfl⟩
          have := (hc s2 hs2 hact2).2 y hy hya hys
          rw [hyw] at this
          exact this
      rcases hsf : st.sessions.find?
          (fun x => x.session_id == l.session_id && x.is_active)
        with _ | us
      · have hres : (CoreWidgetLocking.release_widget_lock st dashboard_id
            widget_id user_id).2 =
            { locks := A ++ { l with is_active := false } :: B,
              sessions := st.sessions } := by
          simp [CoreWidgetLocking.release_widget_lock, hl, hu, hsf,
            hupd (fun x => { x with is_active := false })]
        rw [hres]
        intro s hs hact
        have hsid : s.session_id ≠ l.session_id := by
          intro h
          have := List.find?_eq_none.mp hsf s hs
          simp [h, hact] at this
        exact hkeep s hs hact hsid st.sessions
      · have hpus := List.find?_some hsf
        have husid : us.session_id = l.session_id := by
          simp at hpus
          exact hpus.1
        have husact : us.is_active = true := by
          simp at hpus
          exact hpus.2
        have husmem := List.mem_of_find?_eq_some hsf
        by_cases hwin : widget_id ∈ us.locked_widgets
        case neg =>
          exfalso
          apply hwin
          have h5 := (hc us husmem husact).2 l hlmem hla husid.symm
          rw [hlw] at h5
          exact h5
        case pos =>
          obtain ⟨S1, S2, hS, hS1free, _, hsupd⟩ := find?_decomp hsf
          have hsnodup := hwf.2
          rw [hS] at hsnodup
          have hSne := nodup_map_decomp_ne hsnodup
          have hres : (CoreWidgetLocking.release_widget_lock st dashboard_id
              widget_id user_id).2 =
              { locks := A ++ { l with is_active := false } :: B,
                sessions := S1 ++ ({ us with locked_widgets := us.locked_widgets.filter (fun y => y != widget_id) } : UserSessionRow) :: S2 } := by
            simp [CoreWidgetLocking.release_widget_lock, hl, hu, hsf, hwin,
              hupd (fun x => { x with is_active := false }),
              hsupd (fun x => { x with locked_widgets :=
                x.locked_widgets.filter (fun y => y != widget_id) })]
          rw [hres]
          intro s hs hact
          rcases List.mem_append.mp hs with hmS1 | hsc
          · have hsmem0 : s ∈ st.sessions := by
              rw [hS]
              exact List.mem_append.mpr (Or.inl hmS1)
            have hsid : s.session_id ≠ l.session_id := by
              rw [← husid]
              exact hSne s (List.mem_append.mpr (Or.inl hmS1))
            exact hkeep s hsmem0 hact hsid _
          · rcases List.mem_cons.mp hsc with rfl | hmS2
            · constructor
              · intro w' hw'
                have hw'mem : w' ∈ us.locked_widgets :=
                  (List.mem_filter.mp hw').1
                have hwne : w' ≠ widget_id := by
                  have := (List.mem_filter.mp hw').2
                  simpa using this
                exact (htrans us.session_id w' (Or.inr hwne)).mpr
                  ((hc us husmem husact).1 w' hw'mem)
              · intro x hx hxa hxs
                rcases List.mem_append.mp hx with hmA | hxc
                · have hxw : x.widget_id ≠ widget_id := by
                    rw [← hlw]
                    exact hWne x (List.mem_append.mpr (Or.inl hmA))
                  have hxmem : x ∈ st.locks := by
                    rw [hAB]
                    exact List.mem_append.mpr (Or.inl hmA)
                  have h6 := (hc us husmem husact).2 x hxmem hxa hxs
                  exact List.mem_filter.mpr ⟨h6, by simpa using hxw⟩
                · rcases List.mem_cons.mp hxc with rfl | hmB
                  · simp at hxa
                  · have hxw : x.widget_id ≠ widget_id := by
                      rw [← hlw]
                      exact hWne x (List.mem_append.mpr (Or.inr hmB))
                    have hxmem : x ∈ st.locks := by
                      rw [hAB]
                      exact List.mem_append.mpr (Or.inr
                        (List.mem_cons.mpr (Or.inr hmB)))
                    have h6 := (hc us husmem husact).2 x hxmem hxa hxs
                    exact List.mem_filter.mpr ⟨h6, by simpa using hxw⟩
            · have hsmem0 : s ∈ st.sessions := by
                rw [hS]
                exact List.mem_append.mpr (Or.inr
                  (List.mem_cons.mpr (Or.inr hmS2)))
              have hsid : s.session_id ≠ l.session_id := by
                rw [← husid]
                exact hSne s (List.mem_append.mpr (Or.inr hmS2))
              exact hkeep s hsmem0 hact hsid _

/-- Witness for the amended C2 theorem: on the concrete well-formed,
consistent state `stA`, the owner's release preserves consistency. -/
theorem release_preserves_session_consistency_witness :
    WFState stA ∧ SessionConsistentActive stA ∧
    SessionConsistentActive
      (CoreWidgetLocking.release_widget_lock stA 1 1 5).2 :=
  ⟨by decide, by decide,
    release_preserves_session_consistency stA 1 1 5 (by decide) (by decide)⟩

/-- Witness for the amended C4 theorem: owner release on the concrete state
`stA` returns true, deactivates the lock, and clears the active owning
session's `locked_widgets`. -/
theorem release_widget_lock_characterization_witness :
    (CoreWidgetLocking.release_widget_lock stA 1 1 5).1 = true ∧
    ((CoreWidgetLocking.release_widget_lock stA 1 1 5).2.locks.find?
      (CoreWidgetLocking.release_lock_pred 1 1)) = none ∧
    (∀ s ∈ (CoreWidgetLocking.release_widget_lock stA 1 1 5).2.sessions,
      s.is_active = true → s.session_id = lockA.session_id →
      1 ∉ s.locked_widgets) :=
  (release_widget_lock_characterization stA 1 1 5 (by decide)).2.2 lockA
    (by decide) (by decide)

/-- Witness for the C5 theorem: a valid owner heartbeat on `stA` at t=50
succeeds and stamps the lock with expiry 50 + 120. -/
theorem refresh_widget_lock_characterization_witness :
    (WidgetLockingService.refresh_widget_lock stA 50 1 1 5).1 =
      { success := true, widget_id := 1, expires_at := 50 + 120,
        message := "Widget lock heartbeat refreshed" } ∧
    CoreWidgetLocking.get_active_widget_lock
      (WidgetLockingService.refresh_widget_lock stA 50 1 1 5).2.locks 1 =
      some { lockA with expires_at := 50 + 120, last_heartbeat := 50 } :=
  (refresh_widget_lock_characterization stA 50 1 1 5).2.2.2 lockA
    (by decide) (by decide) (by decide)

/-- Witness for the C6 theorem at the concrete state `stA` (locked by user 5,
queried by user 5 at t=50). -/
theorem get_widget_lock_status_properties_witness :
    WFState stA ∧
    (((WidgetLockingService.get_widget_lock_status stA 50 1 5).is_locked
        = true ↔
      ∃ l ∈ stA.locks, l.widget_id = 1 ∧ l.is_active = true ∧
        (50 : Int) ≤ l.expires_at) ∧
    0 ≤ (WidgetLockingService.get_widget_lock_status stA 50 1 5).time_remaining ∧
    ((WidgetLockingService.get_widget_lock_status stA 50 1 5).can_acquire
        = true ↔
      ((WidgetLockingService.get_widget_lock_status stA 50 1 5).is_locked
          = false ∨
        ∃ l ∈ stA.locks, l.widget_id = 1 ∧ l.is_active = true ∧
          (50 : Int) ≤ l.expires_at ∧ l.user_id = 5))) :=
  ⟨by decide, get_widget_lock_status_properties stA 50 1 5 (by decide)⟩

/-- Witness for the amended C7 theorem: a validated duration of 60 s yields a
successful acquisition whose stored row satisfies
`expires_at - locked_at = 60`. -/
theorem validated_lease_duration_within_bounds_witness :
    validate_lock_duration 60 = some 60 ∧
    (WidgetLockingService.acquire_widget_lock stEmpty 0 1 1 userA 60 30
      false).1.success = true ∧
    ((30 : Int) ≤ 60 ∧ (60 : Int) ≤ 300 ∧
      (CoreWidgetLocking.find_widget_lock_row
        (WidgetLockingService.acquire_widget_lock stEmpty 0 1 1 userA 60 30
          false).2.locks 1).map (fun l => l.expires_at - l.locked_at)
        = some 60) :=
  ⟨by decide, by decide, validated_lease_duration_within_bounds stEmpty 0 1 1
    userA 60 60 30 (by decide) (by decide)⟩

/-- Witness for the amended C8 theorem on the empty store: the failed upsert
returns success=false and changes no lock row, yet the new session 30
persists. -/
theorem acquire_store_error_aborts_lock_but_commits_session_witness :
    (WidgetLockingService.acquire_widget_lock stEmpty 0 1 1 userA 60 30
      true).1.success = false ∧
    (WidgetLockingService.acquire_widget_lock stEmpty 0 1 1 userA 60 30
      true).2.locks = stEmpty.locks ∧
    ∃ s ∈ (WidgetLockingService.acquire_widget_lock stEmpty 0 1 1 userA 60 30
      true).2.sessions, s.session_id = 30 ∧ s.is_active = true ∧
      s.dashboard_id = 1 ∧ s.user_id = userA.user_id := by
  obtain ⟨h1, h2, h3⟩ := acquire_store_error_aborts_lock_but_commits_session
    stEmpty 0 1 1 userA 60 30
  refine ⟨h1, h2, h3 (fun l h => ?_) rfl⟩
  exact absurd h (by simp [CoreWidgetLocking.get_active_widget_lock, stEmpty])
